import Mathlib

/-!
Shallow embedding of the zssh/zscp file-copy command (`zscp` root command in
`cmd` package, helpers in `zsshlib/ssh.go`).

External collaborators (the Go standard library's `filepath` walk order, the
ziti overlay dial, the ssh/sftp wire protocol, the local filesystem) are
modelled as explicit parameters or environment records; every branch and
assignment of the repository's own code is translated statement by statement.
-/

namespace Zssh

/-- Splits a character list at every occurrence of the separator `c`
(the pieces do not contain `c`; `n` separators yield `n + 1` pieces). -/
def splitCharList (c : Char) : List Char → List (List Char)
  | [] => [[]]
  | x :: xs =>
    match splitCharList c xs with
    | [] => [[x]]
    | y :: ys => if x = c then [] :: y :: ys else (x :: y) :: ys

/-- Models Go `strings.Split(s, sep)` for a one-character separator, as a
structurally recursive function the kernel can evaluate. -/
def goSplit (s : String) (c : Char) : List String :=
  (splitCharList c s.toList).map (fun l => ⟨l⟩)

/-- Models Go `strings.Contains` / `strings.ContainsAny` for a one-character
needle. -/
def strContains (s : String) (c : Char) : Bool :=
  s.toList.contains c

/-- Models Go `filepath.Join` on already-clean components: empty parts are
dropped, otherwise the parts are joined with a single separator.  The
repository only ever joins clean relative components. -/
def goJoin (a b : String) : String :=
  if a = "" then b else if b = "" then a else a ++ "/" ++ b

/-- Models Go `filepath.Base`: the last non-empty path element; `""` maps to
`"."` and a path of only separators maps to `"/"`. -/
def goBase (p : String) : String :=
  if p = "" then "." else
    match ((goSplit p '/').filter (fun c => c ≠ "")).getLast? with
    | some c => c
    | none => "/"

/-- Go `strings.ContainsAny(s, ":")`: does the string contain a colon? -/
def containsColon (s : String) : Bool :=
  strContains s ':'

/-- Go `strings.ContainsAny(s, "@")`. -/
def containsAt (s : String) : Bool :=
  strContains s '@'

/-- Result of the argument-parsing prologue of `rootCmd.Run`
(src/unnamed/part_000 lines 57–94). -/
structure InterpResult where
  username : String
  targetIdentity : String
  remoteFilePath : String
  localFilePath : String
  isCopyToRemote : Bool
  deriving Repr, DecidableEq

/-- The argument-parsing prologue of `rootCmd.Run` (part_000 lines 63–94),
parameterised by the externals it reads: `curUser` is `user.Current().Username`
and `goosWindows` is `runtime.GOOS == "windows"`.  `none` models the
`logrus.Fatal` taken when neither argument contains a colon.

Statement-by-statement translation:
* `args[0]` containing `:` selects the download branch, else `args[1]`
  containing `:` selects the upload branch, else fatal;
* `fullRemoteFilePath := strings.Split(remoteFilePath, ":")` and
  `remoteFilePath = fullRemoteFilePath[1]`;
* if `fullRemoteFilePath[0]` contains `@` it is split at `@` into
  username/targetIdentity, otherwise `username` is the current user (with the
  part after `\` kept on Windows) and `targetIdentity = args[0]`. -/
def interpretArgs (args0 args1 : String) (curUser : String) (goosWindows : Bool) :
    Option InterpResult :=
  let branch : Option (String × String × Bool) :=
    if containsColon args0 then some (args0, args1, false)
    else if containsColon args1 then some (args1, args0, true)
    else none
  match branch with
  | none => none
  | some (remoteArg, localFilePath, isCopyToRemote) =>
    let fullRemoteFilePath := goSplit remoteArg ':'
    let remoteFilePath := fullRemoteFilePath.getD 1 ""
    let prefixPart := fullRemoteFilePath.getD 0 ""
    if containsAt prefixPart then
      let userServiceName := goSplit prefixPart '@'
      some { username := userServiceName.getD 0 ""
             targetIdentity := userServiceName.getD 1 ""
             remoteFilePath := remoteFilePath
             localFilePath := localFilePath
             isCopyToRemote := isCopyToRemote }
    else
      let username :=
        if strContains curUser '\\' && goosWindows then
          (goSplit curUser '\\').getD 1 ""
        else curUser
      some { username := username
             targetIdentity := args0
             remoteFilePath := remoteFilePath
             localFilePath := localFilePath
             isCopyToRemote := isCopyToRemote }

example :
    interpretArgs "alice@host1:/tmp/f.txt" "./f.txt" "bob" false =
      some { username := "alice", targetIdentity := "host1",
             remoteFilePath := "/tmp/f.txt", localFilePath := "./f.txt",
             isCopyToRemote := false } := by rfl

example :
    interpretArgs "./local.txt" "host1:/tmp/f.txt" "alice" false =
      some { username := "alice", targetIdentity := "./local.txt",
             remoteFilePath := "/tmp/f.txt", localFilePath := "./local.txt",
             isCopyToRemote := true } := by rfl

/-! ## The recursive-upload walk (part_000 lines 131–152)

`filepath.WalkDir` is an external collaborator: it visits the root path first
and then every entry of the tree in pre-order (a directory before its
contents, children in lexical order), handing each visit to the callback, and
it stops the whole walk as soon as the callback returns a non-nil error.
`Entry`/`walkDirVisits` model that contract; `runWalk` applies the callback
written in the source at each visit. -/

/-- A local filesystem tree as seen by `filepath.WalkDir`.  Children lists are
given in the (lexical) order in which the walker visits them. -/
inductive Entry where
  | fileE (name : String)
  | dirE (name : String) (children : List Entry)

/-- The name of an entry. -/
def Entry.name : Entry → String
  | .fileE n => n
  | .dirE n _ => n

mutual
/-- Visits of `filepath.WalkDir` below the root: each entry contributes
`(path, isDir)` followed by the visits of its children. -/
def preorderVisits : Entry → String → List (String × Bool)
  | .fileE n, parent => [(goJoin parent n, false)]
  | .dirE n cs, parent =>
    (goJoin parent n, true) :: preorderVisitsList cs (goJoin parent n)

/-- Visits of a list of sibling entries, in order. -/
def preorderVisitsList : List Entry → String → List (String × Bool)
  | [], _ => []
  | c :: cs, parent => preorderVisits c parent ++ preorderVisitsList cs parent
end

/-- The visit sequence of `filepath.WalkDir(rootPath, ...)` over a root that
stats successfully: the root itself (under its given path) and then its
descendants in pre-order. -/
def walkDirVisits (rootPath : String) : Entry → List (String × Bool)
  | .fileE _ => [(rootPath, false)]
  | .dirE _ cs => (rootPath, true) :: preorderVisitsList cs rootPath

/-- Remote effects of the walk callback: `client.Mkdir` and
`zsshlib.SendFile`, with the destination each was given and whether the
operation succeeded. -/
inductive Op where
  | mkdirOp (dest : String) (ok : Bool)
  | sendOp (src dest : String) (ok : Bool)
  deriving Repr, DecidableEq

/-- The external remote filesystem: which `Mkdir` destinations fail, and
which `SendFile(client, src, dest)` calls fail (failure may depend on the
destination, e.g. a write into a directory that failed to create). -/
structure WalkEnv where
  mkdirFails : String → Bool
  sendFails : String → String → Bool

/-- The walk over a visit sequence, running the callback of part_000 lines
131–149 at each visit:

* `remoteDestination := filepath.Join(remoteFilePath, filepath.Base(path))`;
* directory: `client.Mkdir(remoteDestination)`, a failure only logged
  (callback returns nil, the walk continues);
* file: `zsshlib.SendFile(client, path, remoteDestination)`, a failure
  returned from the callback, which makes `filepath.WalkDir` abort the
  remaining walk and return that error.

Returns the operations attempted, in order, and the error `filepath.WalkDir`
returned (the source path of the failed send), if any. -/
def runWalk (env : WalkEnv) (remoteFilePath : String) :
    List (String × Bool) → List Op × Option String
  | [] => ([], none)
  | (path, isDir) :: rest =>
    let remoteDestination := goJoin remoteFilePath (goBase path)
    if isDir then
      let r := runWalk env remoteFilePath rest
      (Op.mkdirOp remoteDestination (!env.mkdirFails remoteDestination) :: r.1, r.2)
    else
      if env.sendFails path remoteDestination then
        ([Op.sendOp path remoteDestination false], some path)
      else
        let r := runWalk env remoteFilePath rest
        (Op.sendOp path remoteDestination true :: r.1, r.2)

/-- The operation a single visit performs (destination and success as in
`runWalk`). -/
def visitOp (env : WalkEnv) (remoteFilePath : String) (v : String × Bool) : Op :=
  let remoteDestination := goJoin remoteFilePath (goBase v.1)
  if v.2 then Op.mkdirOp remoteDestination (!env.mkdirFails remoteDestination)
  else Op.sendOp v.1 remoteDestination (!env.sendFails v.1 remoteDestination)

/-- The destination an operation was given. -/
def Op.dest : Op → String
  | .mkdirOp d _ => d
  | .sendOp _ d _ => d

/-- An op stripped of its success flag, for comparing walks under different
remote environments. -/
def Op.strip : Op → Op
  | .mkdirOp d _ => .mkdirOp d true
  | .sendOp s d _ => .sendOp s d true

/-- Is this a failed send? -/
def Op.isFailedSend : Op → Bool
  | .sendOp _ _ ok => !ok
  | _ => false

/-- The example tree of the spec: directory `a/` containing directory `b/`
(with file `y.txt`) and file `x.txt`; children listed in lexical order,
matching the walker's visit order. -/
def exampleTree : Entry :=
  .dirE "a" [.dirE "b" [.fileE "y.txt"], .fileE "x.txt"]

/-- A remote environment where every operation succeeds. -/
def allOkEnv : WalkEnv :=
  { mkdirFails := fun _ => false, sendFails := fun _ _ => false }

example :
    walkDirVisits "a" exampleTree =
      [("a", true), ("a/b", true), ("a/b/y.txt", false), ("a/x.txt", false)] := by
  rfl

example :
    runWalk allOkEnv "dest" (walkDirVisits "a" exampleTree) =
      ([.mkdirOp "dest/a" true, .mkdirOp "dest/b" true,
        .sendOp "a/b/y.txt" "dest/y.txt" true, .sendOp "a/x.txt" "dest/x.txt" true],
       none) := by
  rfl

/-! ## The walk callback itself, including the degenerate invocation

`filepath.WalkDir`'s contract: when the root path cannot be stat'ed, the
callback is invoked exactly once, with the root path, a nil `fs.DirEntry` and
the stat error.  The callback of part_000 lines 131–149 starts by computing
`remoteDestination` and then immediately calls `info.IsDir()`; its `err`
parameter never appears in its body. -/

/-- Control-flow outcome of one callback invocation: a run-time panic (nil
`fs.DirEntry` dereference) or a normal return of the callback's error value. -/
inductive CallbackResult where
  | panicked
  | ret (e : Option String)
  deriving Repr, DecidableEq

/-- One invocation of the `filepath.WalkDir` callback of part_000 lines
131–149.  `info` is the `fs.DirEntry` (`none` = nil interface, carrying
`isDir` otherwise); `err` is the error parameter handed in by the walker.
Translation: `remoteDestination` is computed, then `info.IsDir()` is called —
on a nil entry that is a nil-pointer dereference, i.e. a panic; the `err`
parameter is never read. -/
def walkDirCallback (env : WalkEnv) (remoteFilePath : String)
    (path : String) (info : Option Bool) (err : Option String) : CallbackResult :=
  let remoteDestination := goJoin remoteFilePath (goBase path)
  match info with
  | none => .panicked
  | some isDir =>
    if isDir then
      CallbackResult.ret none
    else
      if env.sendFails path remoteDestination then CallbackResult.ret (some path)
      else CallbackResult.ret none

/-- `filepath.WalkDir` on a root path whose initial `os.Lstat` fails: the
callback runs once with a nil entry and the stat error. -/
def walkDirOnRootStatFailure (env : WalkEnv) (remoteFilePath : String)
    (rootPath : String) (statErr : String) : CallbackResult :=
  walkDirCallback env remoteFilePath rootPath none (some statErr)

/-! ## `AppendBaseName` (zsshlib/ssh.go lines 374–387) -/

/-- What `c.Lstat` reports about a remote path. -/
structure RFileInfo where
  isDir : Bool
  deriving Repr, DecidableEq

/-- `AppendBaseName` from zsshlib/ssh.go, with the sftp client's `Lstat`
passed in as a function (`none` = Lstat returned an error):

* `localPath = filepath.Base(localPath)`;
* blank remote path: result is `filepath.Base(localPath)`;
* otherwise, if `Lstat(remotePath)` succeeds and reports a directory, the
  result is `filepath.Join(remotePath, localPath)`; any other case (Lstat
  error, or not a directory) only logs and leaves `remotePath` unchanged. -/
def AppendBaseName (lstat : String → Option RFileInfo)
    (remotePath localPath : String) : String :=
  let localPath := goBase localPath
  if remotePath = "" then
    goBase localPath
  else
    match lstat remotePath with
    | some info => if info.isDir then goJoin remotePath localPath else remotePath
    | none => remotePath

/-! ## Credential resolution (zsshlib/ssh.go lines 189–279)

`ssh.ParsePrivateKey` and the file read are external; they are passed in as
functions.  `ssh.AuthMethod` values are represented by which resolver
produced them. -/

/-- An `ssh.AuthMethod`, identified by its provenance. -/
inductive AuthMethod where
  | fileKey (keyPath : String)
  | agentKeys
  deriving Repr, DecidableEq

/-- An error value returned by `ssh.ParsePrivateKey`: either the dynamic type
`*ssh.PassphraseMissingError`, or any other error with its message. -/
inductive ParseError where
  | passphraseMissing
  | other (msg : String)
  deriving Repr, DecidableEq

/-- `err.Error()` for a parse error.  A `*ssh.PassphraseMissingError` carries
the library's fixed message. -/
def ParseError.message : ParseError → String
  | .passphraseMissing => "ssh: this private key is passphrase protected"
  | .other m => m

/-- Outcome of `sshAuthMethodFromFile`: a method, an error value, or a
run-time panic. -/
inductive FileAuthOutcome where
  | ok (m : AuthMethod)
  | err (msg : String)
  | panicked
  deriving Repr, DecidableEq

/-- `sshAuthMethodFromFile` (zsshlib/ssh.go lines 262–279).  `readFile` models
`ioutil.ReadFile` (`.error` = read error message) and `parseKey` models
`ssh.ParsePrivateKey` on the file's contents.  Translation:

* read error: return the wrapped "could not read zssh file" error;
* parse success: return `ssh.PublicKeys(signer)`;
* parse error whose `Error()` is exactly `"zssh: no key found"`: return the
  wrapped "no private key found" error;
* any other parse error hits `err.(*ssh.PassphraseMissingError)` — a type
  assertion without the comma-ok form, so a `*ssh.PassphraseMissingError`
  takes the "file is password protected" return, while every other dynamic
  type panics; the final `else` branch ("error parsing private key") is
  unreachable. -/
def sshAuthMethodFromFile (readFile : String → Except String String)
    (parseKey : String → Except ParseError Unit) (keyPath : String) :
    FileAuthOutcome :=
  match readFile keyPath with
  | .error e =>
    .err ("could not read zssh file [" ++ keyPath ++ "]: " ++ e)
  | .ok content =>
    match parseKey content with
    | .ok _ => .ok (.fileKey keyPath)
    | .error parseErr =>
      if parseErr.message = "zssh: no key found" then
        .err ("no private key found in [" ++ keyPath ++ "]: " ++ parseErr.message)
      else
        match parseErr with
        | .passphraseMissing =>
          .err ("file is password protected [" ++ keyPath ++ "] " ++ parseErr.message)
        | .other _ => .panicked

/-- The external world credential resolution runs in: the file read, the key
parse, and what `sshAuthMethodAgent()` returns (`none` = no agent; the probe
is deterministic within one process run). -/
structure CredEnv where
  readFile : String → Except String String
  parseKey : String → Except ParseError Unit
  agentMethod : Option AuthMethod

/-- How many times each external probe has executed. -/
structure ProbeCount where
  fileReads : Nat
  agentProbes : Nat
  deriving Repr, DecidableEq

/-- `SshConfigFactoryImpl` (zsshlib/ssh.go lines 198–205): `resolveAuthDone`
is the fired-state of the `sync.Once`, `authMethods` the cached slice. -/
structure SshConfigFactoryImpl where
  user : String
  host : String
  port : Nat
  keyPath : String
  resolveAuthDone : Bool
  authMethods : List AuthMethod
  deriving Repr, DecidableEq

/-- `NewSshConfigFactoryImpl` (zsshlib/ssh.go lines 207–215). -/
def NewSshConfigFactoryImpl (user keyPath : String) : SshConfigFactoryImpl :=
  { user := user, host := "", port := 22, keyPath := keyPath,
    resolveAuthDone := false, authMethods := [] }

/-- The `ssh.ClientConfig` built by `Config`. -/
structure ClientConfig where
  user : String
  auth : List AuthMethod
  insecureIgnoreHostKey : Bool
  deriving Repr, DecidableEq

/-- Outcome of one `Config` call: the built `ssh.ClientConfig`, or a panic
propagating out of the resolution body (see `sshAuthMethodFromFile`). -/
inductive ConfigOutcome where
  | ok (cfg : ClientConfig)
  | panicked
  deriving Repr, DecidableEq

/-- The agent half of the resolution body (zsshlib/ssh.go lines 246–252),
reached only when `sshAuthMethodFromFile` returned: one agent probe for the
nil check (`if agentMethod := sshAuthMethodAgent(); agentMethod != nil`), a
second probe for the appended value (`append(methods, sshAuthMethodAgent())`)
when the first answered, then the cache is filled and the once marked
fired. -/
def configAgentStep (env : CredEnv) (factory : SshConfigFactoryImpl)
    (count : ProbeCount) (methods : List AuthMethod) :
    ConfigOutcome × SshConfigFactoryImpl × ProbeCount :=
  let count := { count with agentProbes := count.agentProbes + 1 }
  let (methods, count) :=
    match env.agentMethod with
    | some a =>
      (methods ++ [a], { count with agentProbes := count.agentProbes + 1 })
    | none => (methods, count)
  let factory := { factory with resolveAuthDone := true, authMethods := methods }
  let cfg : ClientConfig :=
    { user := factory.user, auth := methods, insecureIgnoreHostKey := true }
  (ConfigOutcome.ok cfg, factory, count)

/-- `SshConfigFactoryImpl.Config` (zsshlib/ssh.go lines 236–260) as a state
transformer over the factory and the probe counters.  Translation:

* `resolveAuthOnce.Do(...)`: the body runs only when the once has not fired;
* body: `sshAuthMethodFromFile(factory.keyPath)` (one file read).  On
  success the method is appended, on an error return it is only logged, and
  both continue into `configAgentStep`; but when `sshAuthMethodFromFile`
  panics (its type-assertion slip), the panic propagates out of the
  `sync.Once` body after that one file read and BEFORE any agent probe —
  `sync.Once.Do` still marks itself fired in its own defer;
* a completed resolution caches `authMethods`, and every completed call
  returns a fresh `ssh.ClientConfig` with the factory's user, the cached
  methods and `ssh.InsecureIgnoreHostKey()`. -/
def configCall (env : CredEnv) (factory : SshConfigFactoryImpl)
    (count : ProbeCount) : ConfigOutcome × SshConfigFactoryImpl × ProbeCount :=
  if factory.resolveAuthDone then
    let cfg : ClientConfig :=
      { user := factory.user, auth := factory.authMethods,
        insecureIgnoreHostKey := true }
    (ConfigOutcome.ok cfg, factory, count)
  else
    let count := { count with fileReads := count.fileReads + 1 }
    match sshAuthMethodFromFile env.readFile env.parseKey factory.keyPath with
    | FileAuthOutcome.ok m => configAgentStep env factory count [m]
    | FileAuthOutcome.err _ => configAgentStep env factory count []
    | FileAuthOutcome.panicked =>
      (ConfigOutcome.panicked,
       { factory with resolveAuthDone := true }, count)

/-! ## `SendFile` (zsshlib/ssh.go lines 281–301) -/

/-- The externals `SendFile` touches: the local read, the remote open, the
remote write. -/
structure SendEnv where
  readLocal : String → Except String String
  openRemote : String → Except String Unit
  writeRemote : String → String → Option String

/-- `SendFile` (zsshlib/ssh.go lines 281–301): read the whole local file,
open/create/truncate the remote file, write the content; each failing step
returns its error (the read and open errors wrapped with context), nothing is
swallowed inside `SendFile` itself. -/
def SendFile (env : SendEnv) (localPath remotePath : String) : Except String Unit :=
  match env.readLocal localPath with
  | .error e => .error ("unable to read local file: " ++ e)
  | .ok content =>
    match env.openRemote remotePath with
    | .error e => .error ("unable to open remote file " ++ remotePath ++ ": " ++ e)
    | .ok _ =>
      match env.writeRemote remotePath content with
      | some e => .error e
      | none => .ok ()

/-! ## The whole `rootCmd.Run` invocation (part_000 lines 34–159)

`logrus.Fatal` / `log.Fatalf` call `os.Exit`, which terminates the process
WITHOUT running deferred calls; the two `defer ...Close()` statements
therefore only run when `Run` returns normally.  The model starts after flag
defaulting (paths already resolved) and records, for each exit, whether the
dialed overlay stream (`svc`) and the sftp client were opened and whether
their deferred `Close` calls ran. -/

/-- How an invocation ended: normal return from `Run`, a
`logrus.Fatal`-style process exit (`os.Exit`, deferred calls skipped)
carrying the logged message, or a run-time panic (the stack unwinds, running
deferred calls, before the process dies). -/
inductive ExitKind where
  | normal
  | fatal (msg : String)
  | panicked (msg : String)
  deriving Repr, DecidableEq

/-- Everything external a run can depend on. -/
structure RunEnv where
  args0 : String
  args1 : String
  curUser : String
  goosWindows : Bool
  recursive : Bool
  configLoadOk : Bool
  getServiceOk : Bool
  dialOk : Bool
  sshDialOk : Bool
  sftpOk : Bool
  localTree : Entry
  walkEnv : WalkEnv
  retrieveErr : Option String

/-- Observable outcome of one invocation. -/
structure RunResult where
  exit : ExitKind
  svcOpened : Bool
  svcClosed : Bool
  clientOpened : Bool
  clientClosed : Bool
  sendFileCalls : List (String × String)
  walkOps : List Op
  droppedErrs : List String
  deriving Repr, DecidableEq

/-- A run that dies before anything is opened. -/
def fatalBeforeOpen (msg : String) : RunResult :=
  { exit := .fatal msg, svcOpened := false, svcClosed := false,
    clientOpened := false, clientClosed := false, sendFileCalls := [],
    walkOps := [], droppedErrs := [] }

/-- `rootCmd.Run` (part_000 lines 34–159), after flag defaulting.
Translation, in source order:

* argument parsing (lines 63–94, `interpretArgs`); no colon anywhere is
  `logrus.Fatal`;
* `getConfig` (`log.Fatalf` when the config cannot load) and
  `ctx.GetService` (fatal when the service is missing) — nothing opened yet;
* `ctx.DialWithOptions`: on error, the deferred `svc.Close()` has been
  registered but `logrus.Fatal` exits without running defers (stream not
  established, `svcOpened := false`);
* `zsshlib.Dial` and `sftp.NewClient`: fatal exits after the stream is open —
  the deferred closes do not run;
* recursive upload: `filepath.WalkDir` with the callback modelled by
  `runWalk`; a walk error is passed to `logrus.Fatal` (defers skipped);
* non-recursive upload: `zsshlib.SendFile(client, localFilePath,
  remoteFilePath)` with the returned error value discarded;
* download: `zsshlib.RetrieveRemoteFiles(...)` with the returned error value
  discarded;
* when `Run` reaches its end, the deferred `client.Close()` and `svc.Close()`
  run.

`runCmd` covers the invocations whose credential resolution returns and
whose walk root stats successfully; `runCmdFull` below extends it with the
two panic exit paths. -/
def runCmd (env : RunEnv) : RunResult :=
  match interpretArgs env.args0 env.args1 env.curUser env.goosWindows with
  | none => fatalBeforeOpen "cannot determine remote file PATH"
  | some ir =>
    if !env.configLoadOk then
      fatalBeforeOpen "failed to load ziti configuration file"
    else if !env.getServiceOk then
      fatalBeforeOpen "error when retrieving all the services for the provided config"
    else if !env.dialOk then
      fatalBeforeOpen "error when dialing service name zssh"
    else if !env.sshDialOk then
      { exit := .fatal "error dialing SSH Conn", svcOpened := true,
        svcClosed := false, clientOpened := false, clientClosed := false,
        sendFileCalls := [], walkOps := [], droppedErrs := [] }
    else if !env.sftpOk then
      { exit := .fatal "error creating sftp client", svcOpened := true,
        svcClosed := false, clientOpened := false, clientClosed := false,
        sendFileCalls := [], walkOps := [], droppedErrs := [] }
    else
      if ir.isCopyToRemote then
        if env.recursive then
          let r := runWalk env.walkEnv ir.remoteFilePath
            (walkDirVisits ir.localFilePath env.localTree)
          match r.2 with
          | some p =>
            { exit := .fatal p, svcOpened := true, svcClosed := false,
              clientOpened := true, clientClosed := false,
              sendFileCalls := [], walkOps := r.1, droppedErrs := [] }
          | none =>
            { exit := .normal, svcOpened := true, svcClosed := true,
              clientOpened := true, clientClosed := true,
              sendFileCalls := [], walkOps := r.1, droppedErrs := [] }
        else
          let dest := ir.remoteFilePath
          let dropped :=
            if env.walkEnv.sendFails ir.localFilePath dest then [ir.localFilePath] else []
          { exit := .normal, svcOpened := true, svcClosed := true,
            clientOpened := true, clientClosed := true,
            sendFileCalls := [(ir.localFilePath, dest)], walkOps := [],
            droppedErrs := dropped }
      else
        { exit := .normal, svcOpened := true, svcClosed := true,
          clientOpened := true, clientClosed := true, sendFileCalls := [],
          walkOps := [],
          droppedErrs := match env.retrieveErr with | some e => [e] | none => [] }

/-- `rootCmd.Run` with the panic exit paths included.  Two statements of the
invocation can panic: `factory.Config()` (part_000 line 118) panics when the
key file is readable but unparseable (the type-assertion slip in
`sshAuthMethodFromFile`), after `defer svc.Close()` is registered at line 113
and before the sftp client exists; and the recursive walk's callback panics
on the nil `fs.DirEntry` passed when the root path cannot be stat'ed, after
both defers are registered.  Unlike `logrus.Fatal` (`os.Exit`, defers
skipped), a panic unwinds the stack and RUNS the deferred closes before the
process dies.  `cred`/`sshKeyPath` feed the `Config` call and `rootStat`
carries the stat error of the walk root when it cannot be stat'ed;
`runCmd` is this function on invocations where `Config` returns and the
root stats successfully. -/
def runCmdFull (env : RunEnv) (cred : CredEnv) (sshKeyPath : String)
    (rootStat : Option String) : RunResult :=
  match interpretArgs env.args0 env.args1 env.curUser env.goosWindows with
  | none => fatalBeforeOpen "cannot determine remote file PATH"
  | some ir =>
    if !env.configLoadOk then
      fatalBeforeOpen "failed to load ziti configuration file"
    else if !env.getServiceOk then
      fatalBeforeOpen "error when retrieving all the services for the provided config"
    else if !env.dialOk then
      fatalBeforeOpen "error when dialing service name zssh"
    else
      match sshAuthMethodFromFile cred.readFile cred.parseKey sshKeyPath with
      | FileAuthOutcome.panicked =>
        { exit := ExitKind.panicked "interface conversion: error is not *ssh.PassphraseMissingError",
          svcOpened := true, svcClosed := true, clientOpened := false,
          clientClosed := false, sendFileCalls := [], walkOps := [],
          droppedErrs := [] }
      | _ =>
        if !env.sshDialOk then
          { exit := .fatal "error dialing SSH Conn", svcOpened := true,
            svcClosed := false, clientOpened := false, clientClosed := false,
            sendFileCalls := [], walkOps := [], droppedErrs := [] }
        else if !env.sftpOk then
          { exit := .fatal "error creating sftp client", svcOpened := true,
            svcClosed := false, clientOpened := false, clientClosed := false,
            sendFileCalls := [], walkOps := [], droppedErrs := [] }
        else
          if ir.isCopyToRemote then
            if env.recursive then
              match rootStat with
              | some statErr =>
                match walkDirOnRootStatFailure env.walkEnv ir.remoteFilePath
                    ir.localFilePath statErr with
                | CallbackResult.panicked =>
                  { exit := ExitKind.panicked "runtime error: invalid memory address or nil pointer dereference",
                    svcOpened := true, svcClosed := true, clientOpened := true,
                    clientClosed := true, sendFileCalls := [], walkOps := [],
                    droppedErrs := [] }
                | CallbackResult.ret (some p) =>
                  { exit := .fatal p, svcOpened := true, svcClosed := false,
                    clientOpened := true, clientClosed := false,
                    sendFileCalls := [], walkOps := [], droppedErrs := [] }
                | CallbackResult.ret none =>
                  { exit := .normal, svcOpened := true, svcClosed := true,
                    clientOpened := true, clientClosed := true,
                    sendFileCalls := [], walkOps := [], droppedErrs := [] }
              | none =>
                let r := runWalk env.walkEnv ir.remoteFilePath
                  (walkDirVisits ir.localFilePath env.localTree)
                match r.2 with
                | some p =>
                  { exit := .fatal p, svcOpened := true, svcClosed := false,
                    clientOpened := true, clientClosed := false,
                    sendFileCalls := [], walkOps := r.1, droppedErrs := [] }
                | none =>
                  { exit := .normal, svcOpened := true, svcClosed := true,
                    clientOpened := true, clientClosed := true,
                    sendFileCalls := [], walkOps := r.1, droppedErrs := [] }
            else
              let dest := ir.remoteFilePath
              let dropped :=
                if env.walkEnv.sendFails ir.localFilePath dest then [ir.localFilePath] else []
              { exit := .normal, svcOpened := true, svcClosed := true,
                clientOpened := true, clientClosed := true,
                sendFileCalls := [(ir.localFilePath, dest)], walkOps := [],
                droppedErrs := dropped }
          else
            { exit := .normal, svcOpened := true, svcClosed := true,
              clientOpened := true, clientClosed := true, sendFileCalls := [],
              walkOps := [],
              droppedErrs := match env.retrieveErr with | some e => [e] | none => [] }

/-- `runCmd` is `runCmdFull` restricted to the non-panicking invocations:
whenever the credential resolution returns (no parse panic) and the walk
root stats successfully, the two models agree exactly. -/
theorem runCmdFull_agrees_with_runCmd :
    ∀ (env : RunEnv) (cred : CredEnv) (sshKeyPath : String),
      sshAuthMethodFromFile cred.readFile cred.parseKey sshKeyPath ≠
        FileAuthOutcome.panicked →
      runCmdFull env cred sshKeyPath none = runCmd env := by
  intro env cred sshKeyPath h
  unfold runCmdFull runCmd
  cases hi : interpretArgs env.args0 env.args1 env.curUser env.goosWindows with
  | none => rfl
  | some ir =>
    cases hcred : sshAuthMethodFromFile cred.readFile cred.parseKey sshKeyPath with
    | panicked => exact absurd hcred h
    | ok m => rfl
    | err e => rfl

/-! ## Theorems -/

/-- Claim C2: false as stated — the code is the slip.  In the no-`@` branch
the source assigns `targetIdentity = args[0]` instead of the colon-split
prefix `fullRemoteFilePath[0]`.  Evaluated at the failing inputs: in the
upload direction (`zscp ./local.txt host1:/tmp/f.txt`, local user `alice`,
not Windows) the whole first argument — the LOCAL path `./local.txt` — is
used as the target identity instead of the prefix `host1`; in the download
direction the whole remote argument `host1:/tmp/f.txt`, colon and path
included, is used instead of `host1`. -/
theorem targetIdentity_gets_args0_not_remote_head :
    interpretArgs "./local.txt" "host1:/tmp/f.txt" "alice" false =
      some { username := "alice", targetIdentity := "./local.txt",
             remoteFilePath := "/tmp/f.txt", localFilePath := "./local.txt",
             isCopyToRemote := true } ∧
    ("./local.txt" : String) ≠ "host1" ∧
    (interpretArgs "host1:/tmp/f.txt" "./local.txt" "alice" false).map
        (fun r => r.targetIdentity) = some "host1:/tmp/f.txt" ∧
    ("host1:/tmp/f.txt" : String) ≠ "host1" := by
  exact ⟨rfl, by decide, rfl, by decide⟩

/-- Claim C9: when both positional arguments contain a colon, the first
branch of the direction check wins: the first argument is the remote
endpoint, the second the local path, the direction is download
(`isCopyToRemote = false`), and the command is not rejected. -/
theorem both_colon_args_resolve_to_download :
    ∀ (a0 a1 curUser : String) (goosWindows : Bool),
      containsColon a0 = true → containsColon a1 = true →
      ∃ r, interpretArgs a0 a1 curUser goosWindows = some r ∧
        r.isCopyToRemote = false ∧
        r.localFilePath = a1 ∧
        r.remoteFilePath = (goSplit a0 ':').getD 1 "" := by
  intro a0 a1 curUser goosWindows h0 _h1
  unfold interpretArgs
  simp only [h0, if_true]
  by_cases hAt : containsAt ((goSplit a0 ':').getD 0 "") = true
  · simp only [hAt, if_true]
    exact ⟨_, rfl, rfl, rfl, rfl⟩
  · simp only [hAt, if_false]
    exact ⟨_, rfl, rfl, rfl, rfl⟩

/-- Claim C9 witness: concrete pair with a colon in both arguments. -/
theorem both_colon_args_resolve_to_download_witness :
    ∃ r, interpretArgs "h:p" "g:q" "u" false = some r ∧
      r.isCopyToRemote = false ∧
      r.localFilePath = "g:q" ∧
      r.remoteFilePath = (goSplit "h:p" ':').getD 1 "" :=
  both_colon_args_resolve_to_download "h:p" "g:q" "u" false (by decide) (by decide)

/-- Claim C10: when the recursive upload's local source path cannot be
stat'ed, `filepath.WalkDir` invokes the callback once with a nil
`fs.DirEntry` and the stat error; the callback calls `info.IsDir()` on the
nil entry and panics, and its error parameter is never inspected (the
callback's result is the same whatever error value is handed in). -/
theorem nil_direntry_panics_and_err_ignored :
    ∀ (env : WalkEnv) (remoteFilePath rootPath statErr : String)
      (info : Option Bool) (e₁ e₂ : Option String),
      walkDirOnRootStatFailure env remoteFilePath rootPath statErr =
        CallbackResult.panicked ∧
      walkDirCallback env remoteFilePath rootPath info e₁ =
        walkDirCallback env remoteFilePath rootPath info e₂ := by
  intro env remoteFilePath rootPath statErr info e₁ e₂
  exact ⟨rfl, rfl⟩

/-- Claim C6: false, and the code is the slip.  `sshAuthMethodFromFile`
handles a parse error with `err.(*ssh.PassphraseMissingError)` — a type
assertion without the comma-ok form — so any parse error that is neither the
exact string `"zssh: no key found"` nor a `*ssh.PassphraseMissingError`
panics instead of returning an error value; the function's own final `else`
branch ("error parsing private key"), clearly meant to report exactly those
errors, is unreachable.  Evaluated at the failing input: a readable key file
with unparseable contents, where `ssh.ParsePrivateKey` reports its plain
`"ssh: no key found"` error, makes the resolver panic.  The two reachable
error returns (unreadable file, passphrase-protected key) are also
evaluated. -/
theorem unhandled_parse_error_panics :
    sshAuthMethodFromFile (fun _ => Except.ok "not a private key")
      (fun _ => Except.error (ParseError.other "ssh: no key found"))
      "/home/u/.ssh/id_rsa" = FileAuthOutcome.panicked ∧
    sshAuthMethodFromFile (fun _ => Except.error "permission denied")
      (fun _ => Except.ok ()) "/home/u/.ssh/id_rsa" =
      FileAuthOutcome.err
        "could not read zssh file [/home/u/.ssh/id_rsa]: permission denied" ∧
    sshAuthMethodFromFile (fun _ => Except.ok "encrypted key")
      (fun _ => Except.error ParseError.passphraseMissing)
      "/home/u/.ssh/id_rsa" =
      FileAuthOutcome.err
        "file is password protected [/home/u/.ssh/id_rsa] ssh: this private key is passphrase protected" := by
  exact ⟨rfl, rfl, rfl⟩

/-- The operations a walk performs are exactly the per-visit operations of an
initial segment of the visit sequence, in visit order (the segment is proper
exactly when a send failed and aborted the walk). -/
theorem runWalk_ops_initial_segment (env : WalkEnv) (remoteFilePath : String) :
    ∀ visits : List (String × Bool),
      ∃ k, (runWalk env remoteFilePath visits).1 =
        (visits.take k).map (visitOp env remoteFilePath) := by
  intro visits
  induction visits with
  | nil => exact ⟨0, rfl⟩
  | cons v rest ih =>
    obtain ⟨path, isDir⟩ := v
    obtain ⟨k, hk⟩ := ih
    cases isDir with
    | true =>
      refine ⟨k + 1, ?_⟩
      simp [runWalk, visitOp, hk]
    | false =>
      by_cases hs : env.sendFails path (goJoin remoteFilePath (goBase path)) = true
      · refine ⟨1, ?_⟩
        simp [runWalk, visitOp, hs]
      · refine ⟨k + 1, ?_⟩
        simp only [Bool.not_eq_true] at hs
        simp [runWalk, visitOp, hs, hk]

/-- The walk's control flow is independent of which directory creations
fail: two remote environments that fail the same sends visit the same
entries, perform the same operations up to the mkdir success flags, and
return the same walk error. -/
theorem runWalk_mkdir_failures_do_not_abort
    (env₁ env₂ : WalkEnv) (remoteFilePath : String)
    (hsend : env₁.sendFails = env₂.sendFails) :
    ∀ visits : List (String × Bool),
      (runWalk env₁ remoteFilePath visits).1.map Op.strip =
        (runWalk env₂ remoteFilePath visits).1.map Op.strip ∧
      (runWalk env₁ remoteFilePath visits).2 =
        (runWalk env₂ remoteFilePath visits).2 := by
  intro visits
  induction visits with
  | nil => exact ⟨rfl, rfl⟩
  | cons v rest ih =>
    obtain ⟨path, isDir⟩ := v
    cases isDir with
    | true =>
      simp only [runWalk, if_true, List.map_cons, Op.strip]
      exact ⟨by rw [ih.1], ih.2⟩
    | false =>
      by_cases hs : env₁.sendFails path (goJoin remoteFilePath (goBase path)) = true
      · simp [runWalk, hs, hsend ▸ hs]
      · simp only [Bool.not_eq_true] at hs
        have hs₂ : env₂.sendFails path (goJoin remoteFilePath (goBase path)) = false :=
          hsend ▸ hs
        simp only [runWalk, hs, hs₂, Bool.false_eq_true, if_false, List.map_cons, Op.strip]
        exact ⟨by rw [ih.1], ih.2⟩

/-- When the walk returns an error, the failed send is the last operation
attempted: everything before it succeeded (no earlier failed send), and no
entry after the failing file was processed. -/
theorem runWalk_send_failure_aborts (env : WalkEnv) (remoteFilePath : String) :
    ∀ (visits : List (String × Bool)) (p : String),
      (runWalk env remoteFilePath visits).2 = some p →
      ∃ ops dest, (runWalk env remoteFilePath visits).1 =
          ops ++ [Op.sendOp p dest false] ∧
        ∀ op ∈ ops, op.isFailedSend = false := by
  intro visits
  induction visits with
  | nil => intro p h; exact absurd h (by simp [runWalk])
  | cons v rest ih =>
    obtain ⟨path, isDir⟩ := v
    intro p h
    cases isDir with
    | true =>
      simp only [runWalk, if_true] at h
      obtain ⟨ops, dest, hops, hprev⟩ := ih p h
      refine ⟨Op.mkdirOp (goJoin remoteFilePath (goBase path))
        (!env.mkdirFails (goJoin remoteFilePath (goBase path))) :: ops, dest, ?_, ?_⟩
      · simp [runWalk, hops]
      · intro op hop
        rcases List.mem_cons.mp hop with h' | h'
        · subst h'; rfl
        · exact hprev op h'
    | false =>
      by_cases hs : env.sendFails path (goJoin remoteFilePath (goBase path)) = true
      · simp only [runWalk, hs, if_true, Bool.false_eq_true, if_false,
          Option.some.injEq] at h
        subst h
        exact ⟨[], goJoin remoteFilePath (goBase path),
          by simp [runWalk, hs], by simp⟩
      · simp only [Bool.not_eq_true] at hs
        simp only [runWalk, hs, Bool.false_eq_true, if_false] at h
        obtain ⟨ops, dest, hops, hprev⟩ := ih p h
        refine ⟨Op.sendOp path (goJoin remoteFilePath (goBase path)) true :: ops,
          dest, ?_, ?_⟩
        · simp [runWalk, hs, hops]
        · intro op hop
          rcases List.mem_cons.mp hop with h' | h'
          · subst h'; rfl
          · exact hprev op h'

/-- Claim C1: false as stated.  The callback computes
`filepath.Join(remoteFilePath, filepath.Base(path))` — the base name only,
not the path relative to the source root — so the tree is flattened.  At the
spec's own example (local tree `a/`, `a/b/`, `a/x.txt`, `a/b/y.txt`, every
remote operation succeeding) the walk creates `dest/a` and `dest/b` and
writes `dest/y.txt` and `dest/x.txt`; it never touches the claimed
destinations `dest/a/b`, `dest/a/b/y.txt` or `dest/a/x.txt`. -/
theorem recursive_upload_flattens_tree :
    (runWalk allOkEnv "dest" (walkDirVisits "a" exampleTree)).1 =
      [Op.mkdirOp "dest/a" true, Op.mkdirOp "dest/b" true,
       Op.sendOp "a/b/y.txt" "dest/y.txt" true,
       Op.sendOp "a/x.txt" "dest/x.txt" true] ∧
    "dest/a/b" ∉
      ((runWalk allOkEnv "dest" (walkDirVisits "a" exampleTree)).1.map Op.dest) ∧
    "dest/a/b/y.txt" ∉
      ((runWalk allOkEnv "dest" (walkDirVisits "a" exampleTree)).1.map Op.dest) ∧
    "dest/a/x.txt" ∉
      ((runWalk allOkEnv "dest" (walkDirVisits "a" exampleTree)).1.map Op.dest) := by
  exact ⟨rfl, by decide, by decide, by decide⟩

/-- Claim C1 as amended: each visited filesystem entry is sent to
`destinationRoot / baseName(entryPath)` (the destination tree is flat, one
level below the destination root), the operations happen in the walker's
pre-order visit sequence (so a directory's creation is attempted before any
entry inside it is processed, an initial segment of the visits being
processed when a send aborts the walk), and on the spec's example tree the
remote side ends up with directories `dest/a`, `dest/b` and files
`dest/y.txt`, `dest/x.txt`, the directories created before the files nested
under them are written. -/
theorem recursive_upload_dest_is_root_slash_basename :
    (∀ (env : WalkEnv) (remoteFilePath rootPath : String) (tree : Entry),
      ∃ k, (runWalk env remoteFilePath (walkDirVisits rootPath tree)).1 =
        ((walkDirVisits rootPath tree).take k).map (visitOp env remoteFilePath)) ∧
    (∀ (env : WalkEnv) (remoteFilePath : String) (v : String × Bool),
      (visitOp env remoteFilePath v).dest = goJoin remoteFilePath (goBase v.1)) ∧
    (runWalk allOkEnv "dest" (walkDirVisits "a" exampleTree)).1 =
      [Op.mkdirOp "dest/a" true, Op.mkdirOp "dest/b" true,
       Op.sendOp "a/b/y.txt" "dest/y.txt" true,
       Op.sendOp "a/x.txt" "dest/x.txt" true] := by
  refine ⟨fun env remoteFilePath rootPath tree =>
    runWalk_ops_initial_segment env remoteFilePath _, ?_, rfl⟩
  intro env remoteFilePath v
  obtain ⟨p, d⟩ := v
  cases d <;> simp [visitOp, Op.dest]

/-- Claim C3: directory-creation failures are logged and the walk continues
(the walk's visited entries, remaining operations and final error are
identical under any pattern of mkdir failures), while the first failing file
send is the last operation attempted — every earlier operation is a mkdir or
a successful send, nothing after it is attempted — and its error is surfaced
by `rootCmd.Run` as a fatal exit. -/
theorem walk_dir_best_effort_file_fatal :
    (∀ (env₁ env₂ : WalkEnv) (remoteFilePath : String)
        (visits : List (String × Bool)),
        env₁.sendFails = env₂.sendFails →
        (runWalk env₁ remoteFilePath visits).1.map Op.strip =
          (runWalk env₂ remoteFilePath visits).1.map Op.strip ∧
        (runWalk env₁ remoteFilePath visits).2 =
          (runWalk env₂ remoteFilePath visits).2) ∧
    (∀ (env : WalkEnv) (remoteFilePath : String)
        (visits : List (String × Bool)) (p : String),
        (runWalk env remoteFilePath visits).2 = some p →
        ∃ ops dest, (runWalk env remoteFilePath visits).1 =
            ops ++ [Op.sendOp p dest false] ∧
          ∀ op ∈ ops, op.isFailedSend = false) ∧
    (∀ (env : RunEnv) (ir : InterpResult) (p : String),
        interpretArgs env.args0 env.args1 env.curUser env.goosWindows = some ir →
        ir.isCopyToRemote = true → env.recursive = true →
        env.configLoadOk = true → env.getServiceOk = true → env.dialOk = true →
        env.sshDialOk = true → env.sftpOk = true →
        (runWalk env.walkEnv ir.remoteFilePath
          (walkDirVisits ir.localFilePath env.localTree)).2 = some p →
        (runCmd env).exit = ExitKind.fatal p) := by
  refine ⟨fun env₁ env₂ remoteFilePath visits h =>
      runWalk_mkdir_failures_do_not_abort env₁ env₂ remoteFilePath h visits,
    fun env remoteFilePath visits p h =>
      runWalk_send_failure_aborts env remoteFilePath visits p h, ?_⟩
  intro env ir p hi hcopy hrec hcfg hsvc hdial hssh hsftp hw
  simp [runCmd, hi, hcfg, hsvc, hdial, hssh, hsftp, hcopy, hrec, hw]

/-- A remote environment for the example tree where creating `dest/a` fails
and sending `a/b/y.txt` fails. -/
def walkEnvDirAndSendFail : WalkEnv :=
  { mkdirFails := fun d => d == "dest/a",
    sendFails := fun s _ => s == "a/b/y.txt" }

/-- The same environment with every mkdir succeeding. -/
def walkEnvSendFailOnly : WalkEnv :=
  { mkdirFails := fun _ => false,
    sendFails := walkEnvDirAndSendFail.sendFails }

/-- A full invocation: recursive upload of the example tree under the
environment where `dest/a` fails to create and `a/b/y.txt` fails to send. -/
def runEnvWalkFailure : RunEnv :=
  { args0 := "a", args1 := "host:dest", curUser := "u", goosWindows := false,
    recursive := true, configLoadOk := true, getServiceOk := true,
    dialOk := true, sshDialOk := true, sftpOk := true,
    localTree := exampleTree, walkEnv := walkEnvDirAndSendFail,
    retrieveErr := none }

/-- Claim C3 witness: at the example tree, a failed `dest/a` creation does
not change the walk (same operations up to mkdir flags, same error as when
every mkdir succeeds), the failed send of `a/b/y.txt` is the final operation,
and the whole invocation exits fatally with that error. -/
theorem walk_dir_best_effort_file_fatal_witness :
    ((runWalk walkEnvDirAndSendFail "dest" (walkDirVisits "a" exampleTree)).1.map
        Op.strip =
      (runWalk walkEnvSendFailOnly "dest" (walkDirVisits "a" exampleTree)).1.map
        Op.strip ∧
     (runWalk walkEnvDirAndSendFail "dest" (walkDirVisits "a" exampleTree)).2 =
      (runWalk walkEnvSendFailOnly "dest" (walkDirVisits "a" exampleTree)).2) ∧
    (∃ ops dest,
      (runWalk walkEnvDirAndSendFail "dest" (walkDirVisits "a" exampleTree)).1 =
        ops ++ [Op.sendOp "a/b/y.txt" dest false] ∧
      ∀ op ∈ ops, op.isFailedSend = false) ∧
    (runCmd runEnvWalkFailure).exit = ExitKind.fatal "a/b/y.txt" := by
  refine ⟨walk_dir_best_effort_file_fatal.1 walkEnvDirAndSendFail
      walkEnvSendFailOnly "dest" (walkDirVisits "a" exampleTree) rfl,
    walk_dir_best_effort_file_fatal.2.1 walkEnvDirAndSendFail "dest"
      (walkDirVisits "a" exampleTree) "a/b/y.txt" (by rfl),
    walk_dir_best_effort_file_fatal.2.2 runEnvWalkFailure
      { username := "u", targetIdentity := "a", remoteFilePath := "dest",
        localFilePath := "a", isCopyToRemote := true } "a/b/y.txt"
      (by rfl) rfl rfl rfl rfl rfl rfl rfl (by rfl)⟩

/-- Credential environment with a readable, parseable key file and a running
agent. -/
def credEnvWithAgent : CredEnv :=
  { readFile := fun _ => Except.ok "key material",
    parseKey := fun _ => Except.ok (),
    agentMethod := some AuthMethod.agentKeys }

/-- Claim C7: false in its probe-count part.  Inside the once-guarded
resolution body the source calls `sshAuthMethodAgent()` twice — once for the
nil check and once more for the value that is appended — so one single
`Config` call on a fresh resolver with an agent present already performs two
agent probes, not at most one. -/
theorem agent_probe_runs_twice_in_one_resolution :
    (configCall credEnvWithAgent (NewSshConfigFactoryImpl "u" "/k")
        { fileReads := 0, agentProbes := 0 }).2.2 =
      { fileReads := 1, agentProbes := 2 } ∧
    ¬ (2 ≤ 1) := by
  exact ⟨rfl, by decide⟩

/-- Credential environment whose key file is readable but unparseable: the
parse error is neither the compared literal nor a passphrase-missing error,
so `sshAuthMethodFromFile` panics. -/
def credEnvParsePanic : CredEnv :=
  { readFile := fun _ => Except.ok "garbage",
    parseKey := fun _ => Except.error (ParseError.other "ssh: no key found"),
    agentMethod := none }

/-- Claim C7 as amended: when the file-key resolution returns (no panic),
resolution is memoized per factory — a second `Config` call returns the
identical outcome (hence identical authentication-method sequence), leaves
the factory and the probe counters unchanged — and the single resolution
performed by the first call reads the key file exactly once but probes the
agent once when no agent answers and twice when one does (both probes inside
that first call).  When the file-key resolution panics instead (readable but
unparseable key), the first `Config` call panics out of the once body after
its one file read and before any agent probe, so no second call ever
happens. -/
theorem config_memoized_with_double_agent_probe :
    (∀ (env : CredEnv) (user keyPath : String) (c₀ : ProbeCount),
      sshAuthMethodFromFile env.readFile env.parseKey keyPath ≠
        FileAuthOutcome.panicked →
      (configCall env
          (configCall env (NewSshConfigFactoryImpl user keyPath) c₀).2.1
          (configCall env (NewSshConfigFactoryImpl user keyPath) c₀).2.2).1 =
        (configCall env (NewSshConfigFactoryImpl user keyPath) c₀).1 ∧
      (configCall env
          (configCall env (NewSshConfigFactoryImpl user keyPath) c₀).2.1
          (configCall env (NewSshConfigFactoryImpl user keyPath) c₀).2.2).2.1 =
        (configCall env (NewSshConfigFactoryImpl user keyPath) c₀).2.1 ∧
      (configCall env
          (configCall env (NewSshConfigFactoryImpl user keyPath) c₀).2.1
          (configCall env (NewSshConfigFactoryImpl user keyPath) c₀).2.2).2.2 =
        (configCall env (NewSshConfigFactoryImpl user keyPath) c₀).2.2 ∧
      (configCall env (NewSshConfigFactoryImpl user keyPath) c₀).2.2.fileReads =
        c₀.fileReads + 1 ∧
      (configCall env (NewSshConfigFactoryImpl user keyPath) c₀).2.2.agentProbes =
        c₀.agentProbes +
          (match env.agentMethod with | some _ => 2 | none => 1)) ∧
    (∀ (env : CredEnv) (user keyPath : String) (c₀ : ProbeCount),
      sshAuthMethodFromFile env.readFile env.parseKey keyPath =
        FileAuthOutcome.panicked →
      (configCall env (NewSshConfigFactoryImpl user keyPath) c₀).1 =
        ConfigOutcome.panicked ∧
      (configCall env (NewSshConfigFactoryImpl user keyPath) c₀).2.2.fileReads =
        c₀.fileReads + 1 ∧
      (configCall env (NewSshConfigFactoryImpl user keyPath) c₀).2.2.agentProbes =
        c₀.agentProbes) := by
  constructor
  · intro env user keyPath c₀ hnp
    cases hf : sshAuthMethodFromFile env.readFile env.parseKey keyPath with
    | panicked => exact absurd hf hnp
    | ok m =>
      cases henv : env.agentMethod <;>
        simp [configCall, NewSshConfigFactoryImpl, configAgentStep, hf, henv]
    | err e =>
      cases henv : env.agentMethod <;>
        simp [configCall, NewSshConfigFactoryImpl, configAgentStep, hf, henv]
  · intro env user keyPath c₀ hf
    simp [configCall, NewSshConfigFactoryImpl, hf]

/-- Claim C7 amended-theorem witness: the memoization part instantiated at a
healthy environment with an agent, and the panic part at the
readable-but-unparseable key file. -/
theorem config_memoized_with_double_agent_probe_witness :
    ((configCall credEnvWithAgent
        (configCall credEnvWithAgent (NewSshConfigFactoryImpl "u" "/k")
          { fileReads := 0, agentProbes := 0 }).2.1
        (configCall credEnvWithAgent (NewSshConfigFactoryImpl "u" "/k")
          { fileReads := 0, agentProbes := 0 }).2.2).2.2 =
      (configCall credEnvWithAgent (NewSshConfigFactoryImpl "u" "/k")
        { fileReads := 0, agentProbes := 0 }).2.2) ∧
    ((configCall credEnvParsePanic (NewSshConfigFactoryImpl "u" "/k")
        { fileReads := 0, agentProbes := 0 }).1 = ConfigOutcome.panicked ∧
     (configCall credEnvParsePanic (NewSshConfigFactoryImpl "u" "/k")
        { fileReads := 0, agentProbes := 0 }).2.2.agentProbes = 0) :=
  ⟨(config_memoized_with_double_agent_probe.1 credEnvWithAgent "u" "/k"
      { fileReads := 0, agentProbes := 0 } (by decide)).2.2.1,
   (config_memoized_with_double_agent_probe.2 credEnvParsePanic "u" "/k"
      { fileReads := 0, agentProbes := 0 } (by decide)).1,
   (config_memoized_with_double_agent_probe.2 credEnvParsePanic "u" "/k"
      { fileReads := 0, agentProbes := 0 } (by decide)).2.2⟩

/-- Splitting never yields an empty list of pieces. -/
theorem splitCharList_ne_nil (c : Char) (l : List Char) :
    splitCharList c l ≠ [] := by
  cases l with
  | nil => simp [splitCharList]
  | cons x xs =>
    rw [splitCharList]
    cases splitCharList c xs with
    | nil => simp
    | cons y ys =>
      dsimp only
      split <;> simp

/-- No piece produced by splitting contains the separator. -/
theorem sep_not_mem_of_mem_splitCharList (c : Char) (l : List Char) :
    ∀ piece ∈ splitCharList c l, c ∉ piece := by
  induction l with
  | nil =>
    intro piece h
    simp only [splitCharList, List.mem_singleton] at h
    subst h
    simp
  | cons x xs ih =>
    intro piece h
    simp only [splitCharList] at h
    cases hs : splitCharList c xs with
    | nil => exact absurd hs (splitCharList_ne_nil c xs)
    | cons y ys =>
      rw [hs] at h
      by_cases hx : x = c
      · simp only [hx, if_true, List.mem_cons] at h
        rcases h with h | h | h
        · subst h; simp
        · subst h; exact ih piece (hs ▸ List.mem_cons_self piece ys)
        · exact ih piece (hs ▸ List.mem_cons_of_mem y h)
      · simp only [hx, if_false, List.mem_cons] at h
        rcases h with h | h
        · subst h
          intro hmem
          rcases List.mem_cons.mp hmem with h' | h'
          · exact hx h'.symm
          · exact ih y (hs ▸ List.mem_cons_self y ys) h'
        · exact ih piece (hs ▸ List.mem_cons_of_mem y h)

/-- Splitting a list that does not contain the separator returns it whole. -/
theorem splitCharList_of_not_mem (c : Char) (l : List Char) (h : c ∉ l) :
    splitCharList c l = [l] := by
  induction l with
  | nil => rfl
  | cons x xs ih =>
    rw [List.mem_cons, not_or] at h
    have hx : ¬ x = c := fun hxc => h.1 hxc.symm
    rw [splitCharList, ih h.2]
    simp [hx]

/-- Taking the base name twice is the same as taking it once. -/
theorem goBase_idem (p : String) : goBase (goBase p) = goBase p := by
  by_cases hp : p = ""
  · subst hp; rfl
  · cases hl : ((goSplit p '/').filter (fun c => c ≠ "")).getLast? with
    | none =>
      have hgb : goBase p = "/" := by
        unfold goBase
        rw [if_neg hp, hl]
      rw [hgb]; rfl
    | some c =>
      have hgb : goBase p = c := by
        unfold goBase
        rw [if_neg hp, hl]
      rw [hgb]
      have hcmem : c ∈ (goSplit p '/').filter (fun c => c ≠ "") := by
        obtain ⟨hne, hceq⟩ := List.mem_getLast?_eq_getLast (Option.mem_def.mpr hl)
        exact hceq ▸ List.getLast_mem hne
      have hcfilter := List.mem_filter.mp hcmem
      have hcne : c ≠ "" := by simpa using hcfilter.2
      obtain ⟨piece, hpiece, hpc⟩ := List.mem_map.mp (by simpa [goSplit] using hcfilter.1)
      have hnosep : '/' ∉ piece := sep_not_mem_of_mem_splitCharList '/' p.toList piece hpiece
      have hsplit : goSplit c '/' = [c] := by
        have htl : c.toList = piece := by rw [← hpc]; rfl
        unfold goSplit
        rw [htl, splitCharList_of_not_mem '/' piece hnosep]
        simpa using hpc
      unfold goBase
      rw [if_neg hcne, hsplit]
      simp [hcne]

/-- An invocation whose overlay dial succeeds but whose ssh negotiation
fails. -/
def runEnvSshDialFails : RunEnv :=
  { args0 := "host1:/etc/motd", args1 := "./motd", curUser := "u",
    goosWindows := false, recursive := false, configLoadOk := true,
    getServiceOk := true, dialOk := true, sshDialOk := false, sftpOk := true,
    localTree := Entry.fileE "motd", walkEnv := allOkEnv, retrieveErr := none }

/-- Claim C5: false as stated.  `logrus.Fatal` calls `os.Exit`, which
terminates the process without running deferred calls; at the failing input
(ssh negotiation fails after the overlay stream was dialed) the invocation
exits fatally with the transport stream open and its deferred `Close` never
run. -/
theorem fatal_abort_leaves_stream_open :
    (runCmd runEnvSshDialFails).svcOpened = true ∧
    (runCmd runEnvSshDialFails).svcClosed = false ∧
    (runCmd runEnvSshDialFails).exit = ExitKind.fatal "error dialing SSH Conn" := by
  exact ⟨rfl, rfl, rfl⟩

/-- Claim C5 as amended: the deferred closes of the transport stream and the
sftp handle run on the normal-return exit path and on the panic exit paths
(a Go panic unwinds the stack and executes deferred calls before the process
dies: the credential-parse panic after `defer svc.Close()` is registered,
and the nil-`DirEntry` walk panic after both defers are registered) — but
every `logrus.Fatal` abort exits through `os.Exit` without running them, so
a fatal abort after the stream or the handle is opened leaks it. -/
theorem closes_run_on_return_and_panic_skipped_on_fatal :
    ∀ (env : RunEnv) (cred : CredEnv) (sshKeyPath : String)
      (rootStat : Option String),
      ((runCmdFull env cred sshKeyPath rootStat).exit = ExitKind.normal →
        (runCmdFull env cred sshKeyPath rootStat).svcClosed = true ∧
        (runCmdFull env cred sshKeyPath rootStat).clientClosed = true) ∧
      (∀ msg,
        (runCmdFull env cred sshKeyPath rootStat).exit = ExitKind.panicked msg →
        ((runCmdFull env cred sshKeyPath rootStat).svcOpened = true →
          (runCmdFull env cred sshKeyPath rootStat).svcClosed = true) ∧
        ((runCmdFull env cred sshKeyPath rootStat).clientOpened = true →
          (runCmdFull env cred sshKeyPath rootStat).clientClosed = true)) ∧
      (∀ msg,
        (runCmdFull env cred sshKeyPath rootStat).exit = ExitKind.fatal msg →
        (runCmdFull env cred sshKeyPath rootStat).svcClosed = false ∧
        (runCmdFull env cred sshKeyPath rootStat).clientClosed = false) := by
  intro env cred sshKeyPath rootStat
  unfold runCmdFull
  cases hi : interpretArgs env.args0 env.args1 env.curUser env.goosWindows with
  | none => simp [fatalBeforeOpen]
  | some ir =>
    cases hcfg : env.configLoadOk with
    | false => simp [fatalBeforeOpen]
    | true =>
    cases hgs : env.getServiceOk with
    | false => simp [fatalBeforeOpen]
    | true =>
    cases hdial : env.dialOk with
    | false => simp [fatalBeforeOpen]
    | true =>
    cases hcred : sshAuthMethodFromFile cred.readFile cred.parseKey sshKeyPath with
    | panicked => simp
    | ok m =>
      cases hssh : env.sshDialOk with
      | false => simp
      | true =>
      cases hsftp : env.sftpOk with
      | false => simp
      | true =>
      cases hcp : ir.isCopyToRemote with
      | false => simp [hcp]
      | true =>
      cases hrec : env.recursive with
      | false => simp [hcp, hrec]
      | true =>
      cases rootStat with
      | some statErr =>
        simp [hcp, hrec, walkDirOnRootStatFailure, walkDirCallback]
      | none =>
        cases hw : (runWalk env.walkEnv ir.remoteFilePath
            (walkDirVisits ir.localFilePath env.localTree)).2 <;>
          simp [hcp, hrec, hw]
    | err e =>
      cases hssh : env.sshDialOk with
      | false => simp
      | true =>
      cases hsftp : env.sftpOk with
      | false => simp
      | true =>
      cases hcp : ir.isCopyToRemote with
      | false => simp [hcp]
      | true =>
      cases hrec : env.recursive with
      | false => simp [hcp, hrec]
      | true =>
      cases rootStat with
      | some statErr =>
        simp [hcp, hrec, walkDirOnRootStatFailure, walkDirCallback]
      | none =>
        cases hw : (runWalk env.walkEnv ir.remoteFilePath
            (walkDirVisits ir.localFilePath env.localTree)).2 <;>
          simp [hcp, hrec, hw]

/-- An invocation doing a non-recursive upload whose `SendFile` fails. -/
def runEnvSendErrDropped : RunEnv :=
  { args0 := "notes.txt", args1 := "host:/tmp/dst", curUser := "u",
    goosWindows := false, recursive := false, configLoadOk := true,
    getServiceOk := true, dialOk := true, sshDialOk := true, sftpOk := true,
    localTree := Entry.fileE "notes.txt",
    walkEnv := { mkdirFails := fun _ => false, sendFails := fun _ _ => true },
    retrieveErr := none }

/-- Claim C4: false as stated.  In the non-recursive upload branch the source
reads `zsshlib.SendFile(client, localFilePath, remoteFilePath)` with the
returned error value discarded (and the download branch discards the result
of `RetrieveRemoteFiles` the same way).  At the failing input — a
non-recursive upload whose send fails — the error is dropped and the
invocation still exits normally. -/
theorem non_recursive_send_error_dropped :
    (runCmd runEnvSendErrDropped).droppedErrs = ["notes.txt"] ∧
    (runCmd runEnvSendErrDropped).exit = ExitKind.normal ∧
    (runCmd runEnvSendErrDropped).sendFileCalls = [("notes.txt", "/tmp/dst")] := by
  exact ⟨rfl, rfl, rfl⟩

/-- Claim C4 as amended: `SendFile` itself never swallows an error — it
succeeds exactly when the local read, the remote open and the remote write
all succeed, returning the failing step's error otherwise — and errors of
the recursive walk are surfaced as fatal exits; but the errors returned by
the single-file transfer calls in the two non-recursive branches are
discarded: whenever an invocation drops an error it nevertheless exits
normally. -/
theorem send_file_propagates_but_call_sites_drop :
    (∀ (senv : SendEnv) (localPath remotePath : String),
      (∃ u, SendFile senv localPath remotePath = Except.ok u) ↔
      (∃ content, senv.readLocal localPath = Except.ok content ∧
        senv.openRemote remotePath = Except.ok () ∧
        senv.writeRemote remotePath content = none)) ∧
    (∀ env : RunEnv,
      (runCmd env).exit = ExitKind.normal ∨ (runCmd env).droppedErrs = []) := by
  constructor
  · intro senv localPath remotePath
    constructor
    · rintro ⟨u, hu⟩
      unfold SendFile at hu
      cases hr : senv.readLocal localPath with
      | error e => simp [hr] at hu
      | ok content =>
        cases ho : senv.openRemote remotePath with
        | error e => simp [hr, ho] at hu
        | ok uu =>
          cases hw : senv.writeRemote remotePath content with
          | some e => simp [hr, ho, hw] at hu
          | none =>
            cases uu
            exact ⟨content, rfl, rfl, hw⟩
    · rintro ⟨content, hr, ho, hw⟩
      exact ⟨(), by simp [SendFile, hr, ho, hw]⟩
  · intro env
    unfold runCmd
    split
    · exact Or.inr rfl
    · rename_i ir heq
      split_ifs <;>
        first
          | exact Or.inr rfl
          | exact Or.inl rfl
          | (cases hw : (runWalk env.walkEnv ir.remoteFilePath
              (walkDirVisits ir.localFilePath env.localTree)).2 <;> simp [hw])

/-- Claim C4 witness: concrete instantiation of the `SendFile` equivalence
(every step succeeding) and of the surfaced-or-dropped dichotomy. -/
theorem send_file_propagates_but_call_sites_drop_witness :
    (∃ u, SendFile
      { readLocal := fun _ => Except.ok "data",
        openRemote := fun _ => Except.ok (),
        writeRemote := fun _ _ => none } "notes.txt" "/tmp/dst" = Except.ok u) ∧
    ((runCmd runEnvSendErrDropped).exit = ExitKind.normal ∨
      (runCmd runEnvSendErrDropped).droppedErrs = []) := by
  constructor
  · exact (send_file_propagates_but_call_sites_drop.1
      { readLocal := fun _ => Except.ok "data",
        openRemote := fun _ => Except.ok (),
        writeRemote := fun _ _ => none } "notes.txt" "/tmp/dst").mpr
      ⟨"data", rfl, rfl, rfl⟩
  · exact send_file_propagates_but_call_sites_drop.2 runEnvSendErrDropped

/-- An invocation uploading `notes.txt` to the blank remote path
(`zscp notes.txt host:`). -/
def runEnvBlankRemote : RunEnv :=
  { args0 := "notes.txt", args1 := "host:", curUser := "u",
    goosWindows := false, recursive := false, configLoadOk := true,
    getServiceOk := true, dialOk := true, sshDialOk := true, sftpOk := true,
    localTree := Entry.fileE "notes.txt", walkEnv := allOkEnv,
    retrieveErr := none }

/-- Claim C8: false as stated.  `AppendBaseName` does compute the claimed
inference, but the non-recursive upload branch never calls it — the source
passes `remoteFilePath` to `SendFile` verbatim.  At the failing input
(uploading `notes.txt` to the blank remote path) the destination handed to
the write is `""`, not the base name `notes.txt` the inference would have
produced. -/
theorem upload_skips_basename_inference :
    (runCmd runEnvBlankRemote).sendFileCalls = [("notes.txt", "")] ∧
    AppendBaseName (fun _ => none) "" "notes.txt" = "notes.txt" ∧
    ("" : String) ≠ "notes.txt" := by
  exact ⟨rfl, rfl, by decide⟩

/-- Claim C8 as amended: the helper `AppendBaseName` implements the
inference — a blank remote path maps to the local file's base name, and a
remote path that `Lstat` reports as an existing directory maps to the remote
path with the base name appended — but the single-file upload path of
`rootCmd.Run` applies it zero times per uploaded file: the destination used
for the write is the parsed remote path unchanged. -/
theorem append_base_name_correct_but_unused :
    (∀ (lstat : String → Option RFileInfo) (localPath : String),
      AppendBaseName lstat "" localPath = goBase localPath) ∧
    (∀ (lstat : String → Option RFileInfo) (remotePath localPath : String),
      remotePath ≠ "" → lstat remotePath = some { isDir := true } →
      AppendBaseName lstat remotePath localPath =
        goJoin remotePath (goBase localPath)) ∧
    (∀ (env : RunEnv) (ir : InterpResult),
      interpretArgs env.args0 env.args1 env.curUser env.goosWindows = some ir →
      ir.isCopyToRemote = true → env.recursive = false →
      env.configLoadOk = true → env.getServiceOk = true → env.dialOk = true →
      env.sshDialOk = true → env.sftpOk = true →
      (runCmd env).sendFileCalls = [(ir.localFilePath, ir.remoteFilePath)]) := by
  refine ⟨?_, ?_, ?_⟩
  · intro lstat localPath
    unfold AppendBaseName
    rw [if_pos rfl]
    exact goBase_idem localPath
  · intro lstat remotePath localPath hne hdir
    unfold AppendBaseName
    rw [if_neg hne, hdir]
    simp
  · intro env ir hi hcopy hrec hcfg hsvc hdial hssh hsftp
    simp [runCmd, hi, hcfg, hsvc, hdial, hssh, hsftp, hcopy, hrec]

/-- Claim C8 witness: the amended statement instantiated — blank remote path
and existing-directory remote path for the helper, and the blank-remote
upload invocation whose write destination is the unchanged parsed remote
path `""`. -/
theorem append_base_name_correct_but_unused_witness :
    AppendBaseName (fun _ => none) "" "dir/notes.txt" = goBase "dir/notes.txt" ∧
    AppendBaseName (fun _ => some { isDir := true }) "/incoming" "notes.txt" =
      goJoin "/incoming" (goBase "notes.txt") ∧
    (runCmd runEnvBlankRemote).sendFileCalls = [("notes.txt", "")] := by
  refine ⟨append_base_name_correct_but_unused.1 (fun _ => none) "dir/notes.txt",
    append_base_name_correct_but_unused.2.1 (fun _ => some { isDir := true })
      "/incoming" "notes.txt" (by decide) rfl,
    append_base_name_correct_but_unused.2.2 runEnvBlankRemote
      { username := "u", targetIdentity := "notes.txt", remoteFilePath := "",
        localFilePath := "notes.txt", isCopyToRemote := true }
      (by rfl) rfl rfl rfl rfl rfl rfl rfl⟩

/-- Claim C5 amended-theorem witness: a normal exit with both handles
closed, a credential-parse panic exit with the opened stream closed by its
deferred call, and a fatal ssh-dial abort with the opened stream left
unclosed. -/
theorem closes_run_on_return_and_panic_skipped_on_fatal_witness :
    ((runCmdFull runEnvSendErrDropped credEnvWithAgent "/k" none).svcClosed = true ∧
     (runCmdFull runEnvSendErrDropped credEnvWithAgent "/k" none).clientClosed = true) ∧
    ((runCmdFull runEnvSendErrDropped credEnvParsePanic "/k" none).svcOpened = true →
      (runCmdFull runEnvSendErrDropped credEnvParsePanic "/k" none).svcClosed = true) ∧
    ((runCmdFull runEnvSshDialFails credEnvWithAgent "/k" none).svcClosed = false ∧
     (runCmdFull runEnvSshDialFails credEnvWithAgent "/k" none).clientClosed = false) :=
  ⟨(closes_run_on_return_and_panic_skipped_on_fatal runEnvSendErrDropped
      credEnvWithAgent "/k" none).1 (by rfl),
   ((closes_run_on_return_and_panic_skipped_on_fatal runEnvSendErrDropped
      credEnvParsePanic "/k" none).2.1
      "interface conversion: error is not *ssh.PassphraseMissingError"
      (by rfl)).1,
   (closes_run_on_return_and_panic_skipped_on_fatal runEnvSshDialFails
      credEnvWithAgent "/k" none).2.2 "error dialing SSH Conn" (by rfl)⟩

end Zssh
